import Mathlib

/-
Verification of the session manager in
src/app/auth/services/auth.service.ts (AuthService).

The service holds two reactive signals, a current user and an
authentication status, and persists a bearer token in the browser local
storage under the fixed key "token".  The embedding below models that
state as a record and each public method as a pure state transformer,
parameterized over the outcome of its single remote HTTP call (the
method never performs more than one).  The local-storage slot at key
"token" -- the only key the service ever touches -- is modelled as a
single optional string.
-/

namespace AuthApp

/-- Authentication status enumeration (`AuthStatus` in the interfaces
module, used by `auth.service.ts`).  The `_authStatus` signal starts at
`checking`. -/
inductive AuthStatus
  | checking
  | authenticated
  | notAuthenticated
  deriving DecidableEq

/-- Modelled from the spec: `User` is an opaque record describing the
authenticated principal (its interfaces source file is not under src/);
the spec scenario exercises `id` and `name` fields. -/
structure User where
  id : Nat
  name : String
  deriving DecidableEq

/-- Modelled from the spec: response body of `POST /auth/login`, a
user/token pair destructured by `login` in `auth.service.ts`. -/
structure LoginResponse where
  user : User
  token : String
  deriving DecidableEq

/-- Modelled from the spec: response body of `GET /auth/check-token`,
a user/token pair destructured by `checkAuthStatus` in
`auth.service.ts`. -/
structure CheckTokenResponse where
  user : User
  token : String
  deriving DecidableEq

/-- Body of a failed HTTP response (`err.error` in the `catchError`
of `login`); its `message` field may be absent (`none` stands for the
JavaScript `undefined`). -/
structure HttpErrorBody where
  message : Option String
  deriving DecidableEq

/-- A failed HTTP call as seen by `catchError` (`err`), carrying the
response body in its `error` field. -/
structure HttpErrorResponse where
  error : HttpErrorBody
  deriving DecidableEq

/-- The observable state of `AuthService`: the `_currentUser` signal,
the `_authStatus` signal, and the local-storage slot at key "token"
(`none` when `localStorage` holds no value under that key). -/
structure AuthState where
  currentUser : Option User
  authStatus : AuthStatus
  tokenStore : Option String
  deriving DecidableEq

/-- State at construction time: both signals at their initial values
(`null` user, `checking` status) while the persisted token slot may hold
anything left over from an earlier browser session. -/
def initState (t : Option String) : AuthState :=
  { currentUser := none, authStatus := AuthStatus.checking, tokenStore := t }

/-- `setAuthentication(user, token)`: sets the current-user signal to
the given user, sets the status signal to `authenticated`, stores the
token under key "token", and returns `true`. -/
def setAuthentication (s : AuthState) (user : User) (token : String) :
    Bool × AuthState :=
  (true,
    { s with
        currentUser := some user
        authStatus := AuthStatus.authenticated
        tokenStore := some token })

/-- `login(email, password)`: the HTTP POST either succeeds with a
`LoginResponse`, in which case the response is mapped through
`setAuthentication`, or fails, in which case `catchError` rethrows
`err.error.message` and the state is untouched.  The result is the
emitted value (`Except.error` for a failed observable) paired with the
state after the call. -/
def login (s : AuthState) (resp : Except HttpErrorResponse LoginResponse) :
    Except (Option String) Bool × AuthState :=
  match resp with
  | Except.ok r =>
      let p := setAuthentication s r.user r.token
      (Except.ok p.1, p.2)
  | Except.error err => (Except.error err.error.message, s)

/-- `logout()`: removes the stored token, nulls the current-user signal,
and sets the status signal to `notAuthenticated`.  Synchronous, no
network call. -/
def logout (s : AuthState) : AuthState :=
  { s with
      tokenStore := none
      currentUser := none
      authStatus := AuthStatus.notAuthenticated }

/-- The guard `if (!token)` in `checkAuthStatus`: true when
`localStorage.getItem` returned `null`, and also for the JavaScript
falsy empty string. -/
def tokenFalsy : Option String → Bool
  | none => true
  | some t => t == ""

/-- `checkAuthStatus()`: reads the stored token; on a falsy token it
calls `logout` and emits `false` without any HTTP request (the `resp`
argument is ignored); otherwise it performs the GET, mapping a success
through `setAuthentication` and translating any error into
`notAuthenticated` status plus an emitted `false` (`catchError` swallows
the error, so the observable never fails). -/
def checkAuthStatus (s : AuthState)
    (resp : Except HttpErrorResponse CheckTokenResponse) : Bool × AuthState :=
  if tokenFalsy s.tokenStore then
    (false, logout s)
  else
    match resp with
    | Except.ok r => setAuthentication s r.user r.token
    | Except.error _ => (false, { s with authStatus := AuthStatus.notAuthenticated })

/-- States of the service after construction.  The constructor runs
`checkAuthStatus` once on the initial state (with whatever token the
store held from an earlier session); afterwards any completed `login`,
`checkAuthStatus` or `logout` step may follow, each with an arbitrary
remote outcome. -/
inductive Reachable : AuthState → Prop
  | constructed (t : Option String)
      (resp : Except HttpErrorResponse CheckTokenResponse) :
      Reachable (checkAuthStatus (initState t) resp).2
  | loginStep (s : AuthState) (resp : Except HttpErrorResponse LoginResponse) :
      Reachable s → Reachable (login s resp).2
  | checkStep (s : AuthState)
      (resp : Except HttpErrorResponse CheckTokenResponse) :
      Reachable s → Reachable (checkAuthStatus s resp).2
  | logoutStep (s : AuthState) : Reachable s → Reachable (logout s)

/-- The part of the spec invariant that the code maintains: the status
is never `checking`, and an `authenticated` status guarantees a
non-null current user. -/
def statusUserOk (s : AuthState) : Prop :=
  s.authStatus ≠ AuthStatus.checking ∧
    (s.authStatus = AuthStatus.authenticated → s.currentUser ≠ none)

/-- Concrete post-construction trace exhibiting the broken biconditional:
construct with an empty store, log in successfully, then suffer a failed
token verification. -/
def cexState : AuthState :=
  (checkAuthStatus
    ((login ((checkAuthStatus (initState none) (Except.error ⟨⟨none⟩⟩)).2)
        (Except.ok ⟨⟨1, "A"⟩, "tok1"⟩)).2)
    (Except.error ⟨⟨none⟩⟩)).2

theorem setAuthentication_ok (s : AuthState) (u : User) (t : String) :
    statusUserOk (setAuthentication s u t).2 := by
  simp [setAuthentication, statusUserOk]

theorem logout_ok (s : AuthState) : statusUserOk (logout s) := by
  simp [logout, statusUserOk]

theorem checkAuthStatus_ok (s : AuthState)
    (resp : Except HttpErrorResponse CheckTokenResponse) :
    statusUserOk (checkAuthStatus s resp).2 := by
  unfold checkAuthStatus
  split
  · exact logout_ok s
  · cases resp with
    | ok r => exact setAuthentication_ok s r.user r.token
    | error e => simp [statusUserOk]

theorem login_ok (s : AuthState) (resp : Except HttpErrorResponse LoginResponse)
    (h : statusUserOk s) : statusUserOk (login s resp).2 := by
  cases resp with
  | ok r => exact setAuthentication_ok s r.user r.token
  | error e => exact h

theorem reachable_statusUserOk (s : AuthState) (h : Reachable s) :
    statusUserOk s := by
  induction h with
  | constructed t resp => exact checkAuthStatus_ok _ _
  | loginStep s2 resp _ ih => exact login_ok s2 resp ih
  | checkStep s2 resp _ _ => exact checkAuthStatus_ok s2 resp
  | logoutStep s2 _ _ => exact logout_ok s2

/-- Claim C1 (counterexample): after constructing with an empty store,
logging in successfully, and then running a `checkAuthStatus` whose
verification request fails, the service is in a reachable state whose
`currentUser` is non-null while `authStatus` is not `authenticated` --
the claimed biconditional invariant does not hold after that
operation. -/
theorem C1_invariant_counterexample :
    Reachable cexState ∧ cexState.currentUser ≠ none ∧
      cexState.authStatus ≠ AuthStatus.authenticated := by
  refine ⟨?_, by decide, by decide⟩
  exact Reachable.checkStep _ _ (Reachable.loginStep _ _
    (Reachable.constructed none (Except.error ⟨⟨none⟩⟩)))

/-- Claim C1 (amended): after every completed operation, `authStatus =
authenticated` implies `currentUser` is non-null (and the status is
never `checking`); the reverse implication fails after a
`checkAuthStatus` whose verification request fails while a user was
set, because that path keeps `currentUser` and only downgrades the
status. -/
theorem C1_invariant_amended (s : AuthState) (h : Reachable s) :
    s.authStatus = AuthStatus.authenticated → s.currentUser ≠ none :=
  (reachable_statusUserOk s h).2

theorem C1_invariant_amended_witness :
    (checkAuthStatus (initState (some "tok")) (Except.ok ⟨⟨1, "A"⟩, "tok2"⟩)).2.currentUser
      ≠ none :=
  C1_invariant_amended _ (Reachable.constructed (some "tok") (Except.ok ⟨⟨1, "A"⟩, "tok2"⟩))
    (by decide)

/-- Claim C2: a `login` whose remote call returns a user/token pair sets
`currentUser` to that user, sets `authStatus` to `authenticated`, stores
that token in the "token" slot, and emits `true`. -/
theorem C2_login_success (s : AuthState) (u : User) (t : String) :
    login s (Except.ok ⟨u, t⟩) =
      (Except.ok true,
        { currentUser := some u
          authStatus := AuthStatus.authenticated
          tokenStore := some t }) := rfl

/-- Claim C3: a failing `login` emits an error carrying exactly the
`message` field of the server error payload (`some m` when the payload
provides the string `m` verbatim, `none` -- the JavaScript `undefined`
fallback -- otherwise) and leaves the whole state unchanged. -/
theorem C3_login_failure (s : AuthState) (err : HttpErrorResponse) :
    login s (Except.error err) = (Except.error err.error.message, s) := rfl

/-- Claim C4: when the store holds a (non-falsy) token and the
verification request fails, `checkAuthStatus` emits `false` (not an
error), sets `authStatus` to `notAuthenticated`, and leaves
`currentUser` and the stored token exactly as they were. -/
theorem C4_check_failure (s : AuthState) (t : String) (e : HttpErrorResponse)
    (htok : s.tokenStore = some t) (hne : t ≠ "") :
    checkAuthStatus s (Except.error e) =
      (false, { s with authStatus := AuthStatus.notAuthenticated }) := by
  have hf : tokenFalsy s.tokenStore = false := by
    simp [tokenFalsy, htok, hne]
  simp [checkAuthStatus, hf]

theorem C4_check_failure_witness :
    checkAuthStatus
        { currentUser := some ⟨1, "A"⟩
          authStatus := AuthStatus.authenticated
          tokenStore := some "tok1" }
        (Except.error ⟨⟨none⟩⟩) =
      (false,
        { currentUser := some ⟨1, "A"⟩
          authStatus := AuthStatus.notAuthenticated
          tokenStore := some "tok1" }) :=
  C4_check_failure _ "tok1" _ rfl (by decide)

/-- Claim C5: with no token in the store, `checkAuthStatus` emits
`false` for every possible remote outcome (the response argument is
never consulted, i.e. no request is made) and ends in the `logout`
state: null user, `notAuthenticated` status, empty token slot. -/
theorem C5_check_no_token (s : AuthState)
    (resp : Except HttpErrorResponse CheckTokenResponse)
    (h : s.tokenStore = none) :
    checkAuthStatus s resp =
        (false,
          { currentUser := none
            authStatus := AuthStatus.notAuthenticated
            tokenStore := none }) ∧
      logout s =
        { currentUser := none
          authStatus := AuthStatus.notAuthenticated
          tokenStore := none } := by
  constructor
  · simp [checkAuthStatus, tokenFalsy, h, logout]
  · rfl

theorem C5_check_no_token_witness :
    checkAuthStatus (initState none) (Except.ok ⟨⟨1, "A"⟩, "x"⟩) =
        (false,
          { currentUser := none
            authStatus := AuthStatus.notAuthenticated
            tokenStore := none }) ∧
      logout (initState none) =
        { currentUser := none
          authStatus := AuthStatus.notAuthenticated
          tokenStore := none } :=
  C5_check_no_token (initState none) (Except.ok ⟨⟨1, "A"⟩, "x"⟩) rfl

/-- Claim C6: from every starting state, `logout` leaves a null current
user, `notAuthenticated` status, and an empty token slot. -/
theorem C6_logout (s : AuthState) :
    (logout s).currentUser = none ∧
      (logout s).authStatus = AuthStatus.notAuthenticated ∧
      (logout s).tokenStore = none :=
  ⟨rfl, rfl, rfl⟩

/-- Claim C7: `logout` is idempotent -- applying it twice yields exactly
the state (user, status, and token slot) that one application yields. -/
theorem C7_logout_idempotent (s : AuthState) :
    logout (logout s) = logout s := rfl

/-- Claim C8: every state reachable after construction (the constructor
runs `checkAuthStatus` once) has status `authenticated` or
`notAuthenticated`, never `checking`: no completed operation ever sets
the status back to `checking`. -/
theorem C8_never_checking (s : AuthState) (h : Reachable s) :
    s.authStatus ≠ AuthStatus.checking :=
  (reachable_statusUserOk s h).1

theorem C8_never_checking_witness :
    (checkAuthStatus (initState none) (Except.error ⟨⟨none⟩⟩)).2.authStatus
      ≠ AuthStatus.checking :=
  C8_never_checking _ (Reachable.constructed none (Except.error ⟨⟨none⟩⟩))

/-- Claim C9: a `checkAuthStatus` whose verification request is made (a
non-falsy token is present) and succeeds emits `true` and applies
exactly the state update a successful `login` applies for the same
user/token response: same `currentUser`, same `authenticated` status,
same stored token -- both paths are the `setAuthentication` update,
which does not depend on the prior state. -/
theorem C9_check_success_matches_login (s sl : AuthState) (u : User)
    (t : String) (h : tokenFalsy s.tokenStore = false) :
    checkAuthStatus s (Except.ok ⟨u, t⟩) = (true, (setAuthentication s u t).2) ∧
      (login sl (Except.ok ⟨u, t⟩)).2 = (setAuthentication s u t).2 ∧
      (setAuthentication s u t).2 =
        { currentUser := some u
          authStatus := AuthStatus.authenticated
          tokenStore := some t } := by
  refine ⟨?_, rfl, rfl⟩
  simp [checkAuthStatus, h, setAuthentication]

theorem C9_check_success_matches_login_witness :
    checkAuthStatus
          { currentUser := none
            authStatus := AuthStatus.checking
            tokenStore := some "old" }
          (Except.ok ⟨⟨1, "A"⟩, "new"⟩) =
        (true,
          (setAuthentication
            { currentUser := none
              authStatus := AuthStatus.checking
              tokenStore := some "old" } ⟨1, "A"⟩ "new").2) ∧
      (login (initState none) (Except.ok ⟨⟨1, "A"⟩, "new"⟩)).2 =
        (setAuthentication
          { currentUser := none
            authStatus := AuthStatus.checking
            tokenStore := some "old" } ⟨1, "A"⟩ "new").2 ∧
      (setAuthentication
          { currentUser := none
            authStatus := AuthStatus.checking
            tokenStore := some "old" } ⟨1, "A"⟩ "new").2 =
        { currentUser := some ⟨1, "A"⟩
          authStatus := AuthStatus.authenticated
          tokenStore := some "new" } :=
  C9_check_success_matches_login _ (initState none) ⟨1, "A"⟩ "new" (by decide)

/-- Claim C10: `login` never emits `false`: for every prior state and
every remote outcome it either emits `true` (the constant result of
`setAuthentication`) or fails with an error value. -/
theorem C10_login_never_false (s : AuthState)
    (resp : Except HttpErrorResponse LoginResponse) :
    (login s resp).1 = Except.ok true ∨
      ∃ m : Option String, (login s resp).1 = Except.error m := by
  cases resp with
  | ok r => exact Or.inl rfl
  | error e => exact Or.inr ⟨e.error.message, rfl⟩

end AuthApp
